import Mathlib

/-!
Verification of the distraction-detection training script
(`models/random-forest/train_model.py`).

The script is a one-shot pipeline: generate synthetic behavioral data with a
weighted-indicator labeling rule, split 80/20, fit a random-forest classifier,
evaluate, and write three output files.  The shallow embedding below translates
the script into Lean: floating-point feature values become rationals, numpy
integer draws become naturals, the numpy global pseudo-random generator becomes
an explicit state threaded through the samplers, and the third-party library
calls (the distribution samplers, the classifier fit, the ONNX serializer) are
modelled as deterministic functions, which is what they are for a fixed seed.
-/

/-- Model of the numpy global pseudo-random generator state.  numpy MT19937 is
a deterministic function of the seed; we model the generator with a 64-bit
linear congruential step, which preserves the property the claims depend on:
every draw is a deterministic function of the current state. -/
structure RngState where
  val : ℕ
deriving DecidableEq, Repr

/-- One step of the modelled generator: returns a raw draw and the next state. -/
def rngStep (s : RngState) : ℕ × RngState :=
  let v := (s.val * 6364136223846793005 + 1442695040888963407) % (2 ^ 64)
  (v / (2 ^ 32), ⟨v⟩)

/-- Model of `np.random.seed(n)`: resets the global generator state to a value
determined by the seed alone. -/
def npSeed (n : ℕ) : RngState :=
  ⟨(n + 11634580027462260723) % (2 ^ 64)⟩

/-- Model of `np.random.exponential(scale)`: a nonnegative rational draw that is
a deterministic function of the state. -/
def drawExponential (scale : ℚ) (s : RngState) : ℚ × RngState :=
  let p := rngStep s
  (scale * (((p.1 % 2048 : ℕ) : ℚ) / 256), p.2)

/-- Model of `np.random.negative_binomial(r, p)`: a natural-number draw that is
a deterministic function of the state. -/
def drawNegBinomial (r : ℕ) (p : ℚ) (s : RngState) : ℕ × RngState :=
  let q := rngStep s
  (q.1 % (20 * r + p.den % 2), q.2)

/-- Model of `np.random.beta(a, b)`: a rational draw in `[0, 1)` that is a
deterministic function of the state. -/
def drawBeta (a b : ℚ) (s : RngState) : ℚ × RngState :=
  let p := rngStep s
  ((((p.1 + a.den + b.den) % 1000 : ℕ) : ℚ) / 1000, p.2)

/-- Model of `np.random.poisson(lam)`: a natural-number draw that is a
deterministic function of the state. -/
def drawPoisson (lam : ℚ) (s : RngState) : ℕ × RngState :=
  let p := rngStep s
  (p.1 % (6 * lam.den % 13 + 1), p.2)

/-- Draw a column of `n` values with the given sampler, threading the generator
state, mirroring a numpy array-valued draw of size `n`. -/
def drawColumn {α : Type} (draw : RngState → α × RngState) : ℕ → RngState → List α × RngState
  | 0, s => ([], s)
  | n + 1, s =>
    let p := draw s
    let rest := drawColumn draw n p.2
    (p.1 :: rest.1, rest.2)

/-- One row of the synthetic behavior table: the six numeric features of the
script (`timeSpent`, `scrollCount`, `scrollDepth`, `clickCount`, `tabSwitches`,
`videoWatchTime`). -/
structure Sample where
  timeSpent : ℚ
  scrollCount : ℕ
  scrollDepth : ℚ
  clickCount : ℕ
  tabSwitches : ℕ
  videoWatchTime : ℚ
deriving DecidableEq, Repr

/-- The feature names, in the column order of the DataFrame built by the
script. -/
def featureNames : List String :=
  ["timeSpent", "scrollCount", "scrollDepth", "clickCount", "tabSwitches",
   "videoWatchTime"]

/-- Python multiplies a boolean indicator by a weight; `bq p` is the numeric
value of the indicator `p`. -/
def bq (p : Prop) [Decidable p] : ℚ :=
  if p then 1 else 0

/-- The distraction score of the script: six weighted indicator conditions,
translated literally from `generate_synthetic_data`. -/
def distraction_score (s : Sample) : ℚ :=
  bq (s.timeSpent > 600) * 0.3 +
  bq (s.scrollCount > 50) * 0.2 +
  bq (s.scrollDepth > 0.8) * 0.15 +
  bq (s.clickCount < 2) * 0.1 +
  bq (s.tabSwitches > 5) * 0.15 +
  bq (s.videoWatchTime > 300) * 0.1

/-- The label rule of the script: `y = (distraction_score > 0.4).astype(int)`.
`1` means Distracted, `0` means Focused. -/
def labelOf (s : Sample) : ℕ :=
  if distraction_score s > 0.4 then 1 else 0

/-- `generate_synthetic_data`: reseeds the global generator with 42, draws the
six feature columns, assembles the rows, and derives the labels with the
threshold rule.  The incoming generator state `g` is the ambient numpy global
state at call time; the call to `np.random.seed(42)` discards it, which is why
the result does not depend on `g`.  The default sample count in the source is
1000. -/
def generate_synthetic_data (g : RngState) (n_samples : ℕ := 1000) :
    (List Sample × List ℕ) × RngState :=
  let g0 := npSeed 42
  let r1 := drawColumn (drawExponential 300) n_samples g0
  let r2 := drawColumn (drawNegBinomial 5 0.5) n_samples r1.2
  let r3 := drawColumn (drawBeta 2 2) n_samples r2.2
  let r4 := drawColumn (drawNegBinomial 3 0.6) n_samples r3.2
  let r5 := drawColumn (drawPoisson 2) n_samples r4.2
  let r6 := drawColumn (drawExponential 120) n_samples r5.2
  let samples := (List.range n_samples).map (fun i =>
    { timeSpent := r1.1.getD i 0
      scrollCount := r2.1.getD i 0
      scrollDepth := r3.1.getD i 0
      clickCount := r4.1.getD i 0
      tabSwitches := r5.1.getD i 0
      videoWatchTime := r6.1.getD i 0 })
  ((samples, samples.map labelOf), r6.2)

/-- The six indicator conditions of the labeling rule, all false. -/
def allIndicatorsFalse (s : Sample) : Prop :=
  ¬ (s.timeSpent > 600) ∧ ¬ (s.scrollCount > 50) ∧ ¬ (s.scrollDepth > 0.8) ∧
  ¬ (s.clickCount < 2) ∧ ¬ (s.tabSwitches > 5) ∧ ¬ (s.videoWatchTime > 300)

/-- The six indicator conditions of the labeling rule, all true. -/
def allIndicatorsTrue (s : Sample) : Prop :=
  s.timeSpent > 600 ∧ s.scrollCount > 50 ∧ s.scrollDepth > 0.8 ∧
  s.clickCount < 2 ∧ s.tabSwitches > 5 ∧ s.videoWatchTime > 300

/-- Helper: the sample list produced by `generate_synthetic_data` has exactly
`n_samples` rows. -/
theorem generate_synthetic_data_length (g : RngState) (n : ℕ) :
    ((generate_synthetic_data g n).1.1).length = n := by
  simp [generate_synthetic_data]

/-- A sample with every indicator inactive. -/
def sampleAllFalse : Sample :=
  { timeSpent := 0, scrollCount := 0, scrollDepth := 0, clickCount := 2,
    tabSwitches := 0, videoWatchTime := 0 }

/-- A sample with every indicator active. -/
def sampleAllTrue : Sample :=
  { timeSpent := 601, scrollCount := 51, scrollDepth := 9/10, clickCount := 1,
    tabSwitches := 6, videoWatchTime := 301 }

/-- A sample whose distraction score is exactly the 0.4 threshold: only the
`timeSpent > 600` indicator (weight 0.3) and the `clickCount < 2` indicator
(weight 0.1) are active. -/
def sampleAtThreshold : Sample :=
  { timeSpent := 601, scrollCount := 0, scrollDepth := 0, clickCount := 0,
    tabSwitches := 0, videoWatchTime := 0 }

/-- C1: a synthetic sample for which all six indicator conditions are false is
labeled 0, and a sample for which all six are true has distraction score
exactly 1 (which exceeds the 0.4 threshold) and is labeled 1. -/
theorem label_rule_extremes (s t : Sample)
    (hs : allIndicatorsFalse s) (ht : allIndicatorsTrue t) :
    labelOf s = 0 ∧ distraction_score t = 1 ∧ labelOf t = 1 := by
  obtain ⟨hs1, hs2, hs3, hs4, hs5, hs6⟩ := hs
  obtain ⟨ht1, ht2, ht3, ht4, ht5, ht6⟩ := ht
  have hscs : distraction_score s = 0 := by
    simp [distraction_score, bq, hs1, hs2, hs3, hs4, hs5, hs6]
  have hsct : distraction_score t = 1 := by
    simp [distraction_score, bq, ht1, ht2, ht3, ht4, ht5, ht6]
    norm_num
  refine ⟨?_, hsct, ?_⟩
  · simp only [labelOf, hscs]
    norm_num
  · simp only [labelOf, hsct]
    norm_num

/-- Witness for C1 at concrete samples: `sampleAllFalse` satisfies all six
negated conditions and is labeled 0; `sampleAllTrue` satisfies all six
conditions, scores exactly 1, and is labeled 1. -/
theorem label_rule_extremes_witness :
    allIndicatorsFalse sampleAllFalse ∧ allIndicatorsTrue sampleAllTrue ∧
    (labelOf sampleAllFalse = 0 ∧ distraction_score sampleAllTrue = 1 ∧
      labelOf sampleAllTrue = 1) :=
  ⟨by norm_num [allIndicatorsFalse, sampleAllFalse],
   by norm_num [allIndicatorsTrue, sampleAllTrue],
   label_rule_extremes sampleAllFalse sampleAllTrue
     (by norm_num [allIndicatorsFalse, sampleAllFalse])
     (by norm_num [allIndicatorsTrue, sampleAllTrue])⟩

/-- C9: the labeling threshold is strict.  A sample whose weighted distraction
score is exactly 0.4 is labeled 0 (Focused), not 1. -/
theorem threshold_strict (s : Sample) (h : distraction_score s = 0.4) :
    labelOf s = 0 := by
  simp only [labelOf, h]
  norm_num

/-- Witness for C9: the concrete sample with exactly the `timeSpent` (0.3) and
`clickCount` (0.1) indicators active scores exactly 0.4 and is labeled 0. -/
theorem threshold_strict_witness :
    distraction_score sampleAtThreshold = 0.4 ∧ labelOf sampleAtThreshold = 0 :=
  ⟨by norm_num [distraction_score, sampleAtThreshold, bq],
   threshold_strict sampleAtThreshold
     (by norm_num [distraction_score, sampleAtThreshold, bq])⟩

/-- C10: the six indicator weights sum to exactly 1; every distraction score
lies in the closed interval `[0, 1]`; every label is 0 or 1; and the label
column produced by `generate_synthetic_data` is exactly the image of the sample
rows under the label rule. -/
theorem distraction_score_in_unit_interval (s : Sample) (g : RngState) (n : ℕ) :
    ((0.3 : ℚ) + 0.2 + 0.15 + 0.1 + 0.15 + 0.1 = 1) ∧
    (0 ≤ distraction_score s ∧ distraction_score s ≤ 1) ∧
    (labelOf s = 0 ∨ labelOf s = 1) ∧
    (generate_synthetic_data g n).1.2 =
      ((generate_synthetic_data g n).1.1).map labelOf := by
  refine ⟨by norm_num, ?_, ?_, rfl⟩
  · unfold distraction_score bq
    split_ifs <;> norm_num
  · unfold labelOf
    split_ifs <;> simp

/-- Model of `sklearn.model_selection.train_test_split(X, y, test_size, random_state)`:
the library draws a seed-determined permutation of the rows (modelled here as a
seed-indexed rotation) and splits off `ceil(test_size * n)` rows as the test
set.  Returns `(X_train, X_test, y_train, y_test)` in the order of the call
site. -/
def train_test_split {α β : Type} (xs : List α) (ys : List β)
    (test_size : ℚ) (random_state : ℕ) :
    List α × List α × List β × List β :=
  let n := xs.length
  let nTest := Nat.ceil (test_size * (n : ℚ))
  let k := random_state % (n + 1)
  ((xs.rotate k).drop nTest, (xs.rotate k).take nTest,
   (ys.rotate k).drop nTest, (ys.rotate k).take nTest)

/-- The hyperparameters the script passes to `RandomForestClassifier(...)`. -/
structure RandomForestClassifier where
  n_estimators : ℕ
  max_depth : ℕ
  min_samples_split : ℕ
  random_state : ℕ
deriving DecidableEq, Repr

/-- Minimal model of one fitted decision tree of the ensemble: the claims only
ever inspect the number of trees, never their internal structure. -/
structure DecisionTree where
  majority : ℕ
deriving DecidableEq, Repr

/-- Per-feature raw scores used by the modelled importance computation:
smoothed frequencies of the six indicator conditions in the training data, in
feature order. -/
def indicatorCounts (X : List Sample) : List ℕ :=
  [1 + (X.filter (fun s => decide (s.timeSpent > 600))).length,
   1 + (X.filter (fun s => decide (s.scrollCount > 50))).length,
   1 + (X.filter (fun s => decide (s.scrollDepth > 0.8))).length,
   1 + (X.filter (fun s => decide (s.clickCount < 2))).length,
   1 + (X.filter (fun s => decide (s.tabSwitches > 5))).length,
   1 + (X.filter (fun s => decide (s.videoWatchTime > 300))).length]

/-- Model of sklearn `feature_importances_`: the library contract is a vector
of per-feature scores normalized to sum to one; we model the raw scores with
`indicatorCounts` and normalize by their total. -/
def importancesOf (X : List Sample) : List ℚ :=
  (indicatorCounts X).map
    (fun k : ℕ => (k : ℚ) / (((indicatorCounts X).sum : ℕ) : ℚ))

/-- A fitted random forest: the hyperparameters it was created with, its list
of fitted trees (`estimators_`), and its normalized feature importances. -/
structure FittedModel where
  params : RandomForestClassifier
  estimators_ : List DecisionTree
  feature_importances_ : List ℚ
deriving DecidableEq, Repr

/-- Model of `RandomForestClassifier(...).fit(X, y)`: deterministic given the
fixed `random_state`; produces `n_estimators` trees and normalized feature
importances. -/
def fit (params : RandomForestClassifier) (X : List Sample) (y : List ℕ) :
    FittedModel :=
  let ones := (y.filter (fun v => decide (v = 1))).length
  let maj := if 2 * ones > y.length then 1 else 0
  { params := params
    estimators_ := List.replicate params.n_estimators ⟨maj⟩
    feature_importances_ := importancesOf X }

/-- Model of `model.predict(X)`: a deterministic majority vote of the fitted
trees, one prediction per test row. -/
def FittedModel.predict (m : FittedModel) (X : List Sample) : List ℕ :=
  X.map (fun _ =>
    if 2 * ((m.estimators_.filter (fun t => decide (t.majority = 1))).length) >
        m.estimators_.length
    then 1 else 0)

/-- `sklearn.metrics.accuracy_score`: the fraction of positions where the
prediction equals the true label. -/
def accuracy_score (yTrue yPred : List ℕ) : ℚ :=
  ((((yTrue.zip yPred).filter (fun p => decide (p.1 = p.2))).length : ℕ) : ℚ) /
    ((yTrue.length : ℕ) : ℚ)

/-- One entry of `model_data/trees_data.json`:
`\x7btreeIndex: int, feature_names: [string]\x7d`. -/
structure TreeEntry where
  treeIndex : ℕ
  feature_names : List String
deriving DecidableEq, Repr

/-- A file written by the script: its path and its textual content. -/
structure FileWrite where
  path : String
  content : String
deriving DecidableEq, Repr

/-- Decimal rendering of a rational for the JSON model. -/
def ratStr (q : ℚ) : String :=
  toString q.num ++ "/" ++ toString q.den

/-- Model of `json.dump(importance_dict, f, indent=2)`: one key per feature
name, in insertion order. -/
def jsonOfImportance (d : List (String × ℚ)) : String :=
  "\x7b" ++
    String.intercalate ", "
      (d.map (fun p => "\"" ++ p.1 ++ "\": " ++ ratStr p.2)) ++
  "\x7d"

/-- Model of the JSON serialization of one tree entry. -/
def jsonOfTree (t : TreeEntry) : String :=
  "\x7b\"treeIndex\": " ++ toString t.treeIndex ++ ", \"feature_names\": [" ++
    String.intercalate ", " (t.feature_names.map (fun n => "\"" ++ n ++ "\"")) ++
  "]\x7d"

/-- Model of `json.dump(trees_data, f, indent=2)`: a JSON array. -/
def jsonOfTrees (ts : List TreeEntry) : String :=
  "[" ++ String.intercalate ", " (ts.map jsonOfTree) ++ "]"

/-- Model of `convert_sklearn(model, initial_types=[(float_input, [None, 6])],
target_opset=12)` followed by `SerializeToString()`: an opaque deterministic
encoding of the fitted model; never empty (it begins with a fixed header). -/
def onnxSerialize (m : FittedModel) : String :=
  "ONNX:opset12:float_input:" ++ toString m.feature_importances_.length ++
    ":trees:" ++ toString m.estimators_.length

/-- The observable results of one run of `train_and_export_model`: the feature
table and label column, the fitted model, the evaluation metric, the two JSON
payloads, and the files written, in write order. -/
structure RunOutput where
  X : List Sample
  y : List ℕ
  model : FittedModel
  accuracy : ℚ
  importance_dict : List (String × ℚ)
  trees_data : List TreeEntry
  files : List FileWrite

/-- `train_and_export_model`: generate 2000 synthetic samples, split 80/20 with
seed 42, fit the forest with the fixed hyperparameters, evaluate on the test
set, and write the three output files, translated step by step from the
source.  `g` is the ambient numpy generator state at invocation time. -/
def train_and_export_model (g : RngState) : RunOutput :=
  let Xy := generate_synthetic_data g 2000
  let X := Xy.1.1
  let y := Xy.1.2
  let split := train_test_split X y 0.2 42
  let X_train := split.1
  let X_test := split.2.1
  let y_train := split.2.2.1
  let y_test := split.2.2.2
  let model := fit { n_estimators := 100, max_depth := 10,
                     min_samples_split := 5, random_state := 42 } X_train y_train
  let y_pred := model.predict X_test
  let accuracy := accuracy_score y_test y_pred
  let importance_dict := featureNames.zip model.feature_importances_
  let trees_data := ((model.estimators_.take 5).enum).map
    (fun p => { treeIndex := p.1, feature_names := featureNames })
  { X := X, y := y, model := model, accuracy := accuracy,
    importance_dict := importance_dict, trees_data := trees_data,
    files := [⟨"model_data/feature_importance.json", jsonOfImportance importance_dict⟩,
              ⟨"onnx/random_forest_model.onnx", onnxSerialize model⟩,
              ⟨"model_data/trees_data.json", jsonOfTrees trees_data⟩] }

/-- Helper: dividing each element of a list of naturals by a fixed rational and
summing equals the cast sum divided by that rational. -/
theorem sum_map_div (l : List ℕ) (t : ℚ) :
    (l.map (fun k : ℕ => (k : ℚ) / t)).sum = ((l.sum : ℕ) : ℚ) / t := by
  induction l with
  | nil => simp
  | cons a l ih =>
      simp only [List.map_cons, List.sum_cons, ih, Nat.cast_add, add_div]

/-- Helper: the total of the raw importance scores is positive. -/
theorem indicatorCounts_sum_pos (X : List Sample) :
    0 < (indicatorCounts X).sum := by
  simp only [indicatorCounts, List.sum_cons, List.sum_nil]
  omega

/-- Helper: the modelled feature importances always sum to exactly one, the
library normalization contract. -/
theorem importancesOf_sum (X : List Sample) : (importancesOf X).sum = 1 := by
  have hpos := indicatorCounts_sum_pos X
  have hne : (((indicatorCounts X).sum : ℕ) : ℚ) ≠ 0 := by
    exact_mod_cast hpos.ne.symm
  rw [importancesOf, sum_map_div, div_self hne]

/-- Helper: the importance JSON payload is a nonempty string. -/
theorem jsonOfImportance_length_pos (d : List (String × ℚ)) :
    0 < (jsonOfImportance d).length := by
  rw [jsonOfImportance, String.length_append, String.length_append]
  have h : ("\x7b" : String).length = 1 := rfl
  omega

/-- Helper: the serialized ONNX payload is a nonempty string. -/
theorem onnxSerialize_length_pos (m : FittedModel) :
    0 < (onnxSerialize m).length := by
  rw [onnxSerialize, String.length_append, String.length_append,
    String.length_append]
  have h : ("ONNX:opset12:float_input:" : String).length = 25 := rfl
  omega

/-- Helper: the trees JSON payload is a nonempty string. -/
theorem jsonOfTrees_length_pos (ts : List TreeEntry) :
    0 < (jsonOfTrees ts).length := by
  rw [jsonOfTrees, String.length_append, String.length_append]
  have h : ("[" : String).length = 1 := rfl
  omega

/-- C2: the pipeline is deterministic.  Whatever the ambient numpy generator
state is at invocation time, the generated feature table, label vector,
evaluation metric, and in fact the entire run output coincide between any two
invocations, because `generate_synthetic_data` reseeds the generator with the
fixed seed 42 and the split and the classifier use their own fixed
`random_state`. -/
theorem pipeline_deterministic (g₁ g₂ : RngState) :
    (generate_synthetic_data g₁ 2000).1 = (generate_synthetic_data g₂ 2000).1 ∧
    (train_and_export_model g₁).X = (train_and_export_model g₂).X ∧
    (train_and_export_model g₁).y = (train_and_export_model g₂).y ∧
    (train_and_export_model g₁).accuracy = (train_and_export_model g₂).accuracy ∧
    train_and_export_model g₁ = train_and_export_model g₂ :=
  ⟨rfl, rfl, rfl, rfl, rfl⟩

/-- Counterexample to C3 as stated: calling `generate_synthetic_data` without
an explicit sample count does not yield 2000 samples. -/
theorem default_sample_count_counterexample :
    ¬ (((generate_synthetic_data ⟨0⟩).1.1).length = 2000) := by
  have h := generate_synthetic_data_length ⟨0⟩ 1000
  omega

set_option maxRecDepth 4000 in
/-- Helper: the feature table of the run is the one generated with the explicit
sample count 2000. -/
theorem train_X_eq (g : RngState) :
    (train_and_export_model g).X = (generate_synthetic_data g 2000).1.1 := rfl

/-- C3 (amended): the default sample count of `generate_synthetic_data` is
1000, not 2000; the run obtains 2000 samples only because
`train_and_export_model` passes `n_samples=2000` explicitly. -/
theorem default_sample_count (g : RngState) :
    ((generate_synthetic_data g).1.1).length = 1000 ∧
    (train_and_export_model g).X.length = 2000 := by
  constructor
  · exact generate_synthetic_data_length g 1000
  · rw [train_X_eq]
    exact generate_synthetic_data_length g 2000

/-- C4: for every sample count `n`, the split takes `ceil(0.2 * n)` rows as the
test set, which is within one of `round(0.2 * n)`; the test and training sets
partition the `n` rows; and for the sample count 2000 used by the run the test
set has exactly 400 rows and the training set 1600. -/
theorem test_split_size (n : ℕ) (xs : List Sample) (ys : List ℕ)
    (hx : xs.length = n) :
    (train_test_split xs ys 0.2 42).2.1.length +
      (train_test_split xs ys 0.2 42).1.length = n ∧
    |((train_test_split xs ys 0.2 42).2.1.length : ℤ) -
      round ((0.2 : ℚ) * (n : ℚ))| ≤ 1 ∧
    (n = 2000 → (train_test_split xs ys 0.2 42).2.1.length = 400 ∧
      (train_test_split xs ys 0.2 42).1.length = 1600) := by
  have hle : Nat.ceil ((0.2 : ℚ) * (n : ℚ)) ≤ n := by
    rw [Nat.ceil_le]
    have h0 : (0 : ℚ) ≤ (n : ℚ) := Nat.cast_nonneg n
    linarith
  have htest : (train_test_split xs ys 0.2 42).2.1.length =
      Nat.ceil ((0.2 : ℚ) * (n : ℚ)) := by
    simp only [train_test_split, List.length_take, List.length_rotate, hx]
    exact Nat.min_eq_left hle
  have htrain : (train_test_split xs ys 0.2 42).1.length =
      n - Nat.ceil ((0.2 : ℚ) * (n : ℚ)) := by
    simp only [train_test_split, List.length_drop, List.length_rotate, hx]
  refine ⟨?_, ?_, ?_⟩
  · rw [htest, htrain]
    omega
  · rw [htest]
    set x : ℚ := (0.2 : ℚ) * (n : ℚ) with hxdef
    have hx0 : (0 : ℚ) ≤ x := by
      rw [hxdef]
      positivity
    have hceil_lt : ((Nat.ceil x : ℕ) : ℚ) < x + 1 := Nat.ceil_lt_add_one hx0
    have hceil_ge : x ≤ ((Nat.ceil x : ℕ) : ℚ) := Nat.le_ceil x
    have hround := abs_sub_round x
    rw [abs_le] at hround
    have hub : ((Nat.ceil x : ℕ) : ℚ) - ((round x : ℤ) : ℚ) < 3 / 2 := by
      linarith [hround.1, hround.2]
    have hlb : -(3 / 2 : ℚ) < ((Nat.ceil x : ℕ) : ℚ) - ((round x : ℤ) : ℚ) := by
      linarith [hround.1, hround.2]
    have h2 : ((Nat.ceil x : ℕ) : ℤ) - round x < 2 := by
      have : (((Nat.ceil x : ℕ) : ℤ) : ℚ) - ((round x : ℤ) : ℚ) < 2 := by
        push_cast
        push_cast at hub
        linarith
      exact_mod_cast this
    have h3 : -2 < ((Nat.ceil x : ℕ) : ℤ) - round x := by
      have : (-2 : ℚ) < (((Nat.ceil x : ℕ) : ℤ) : ℚ) - ((round x : ℤ) : ℚ) := by
        push_cast
        push_cast at hlb
        linarith
      exact_mod_cast this
    rw [abs_le]
    omega
  · intro hn
    subst hn
    have hc : Nat.ceil ((0.2 : ℚ) * ((2000 : ℕ) : ℚ)) = 400 := by
      norm_num
    rw [htest, htrain, hc]
    omega

/-- Witness for C4 at the run's sample count: a table of 2000 rows satisfies
the length hypothesis, splits into 400 test and 1600 training rows, and the
test size is within one of `round(0.2 * 2000)`. -/
theorem test_split_size_witness :
    (List.replicate 2000 sampleAllFalse).length = 2000 ∧
    ((train_test_split (List.replicate 2000 sampleAllFalse)
        (List.replicate 2000 (0 : ℕ)) 0.2 42).2.1.length +
      (train_test_split (List.replicate 2000 sampleAllFalse)
        (List.replicate 2000 (0 : ℕ)) 0.2 42).1.length = 2000 ∧
    |((train_test_split (List.replicate 2000 sampleAllFalse)
        (List.replicate 2000 (0 : ℕ)) 0.2 42).2.1.length : ℤ) -
      round ((0.2 : ℚ) * ((2000 : ℕ) : ℚ))| ≤ 1 ∧
    ((2000 : ℕ) = 2000 →
      (train_test_split (List.replicate 2000 sampleAllFalse)
        (List.replicate 2000 (0 : ℕ)) 0.2 42).2.1.length = 400 ∧
      (train_test_split (List.replicate 2000 sampleAllFalse)
        (List.replicate 2000 (0 : ℕ)) 0.2 42).1.length = 1600)) :=
  ⟨List.length_replicate 2000 sampleAllFalse,
   test_split_size 2000 (List.replicate 2000 sampleAllFalse)
    (List.replicate 2000 0) (List.length_replicate 2000 sampleAllFalse)⟩

set_option maxRecDepth 8000 in
/-- C5: a successful run writes exactly the three output files, in write
order, each with nonempty content; the importance dictionary has exactly the
six feature names as keys; and the trees payload is an array of exactly five
entries, entry `i` carrying `treeIndex = i` and the feature-name list. -/
theorem export_outputs_shape (g : RngState) :
    ((train_and_export_model g).files).map FileWrite.path =
      ["model_data/feature_importance.json", "onnx/random_forest_model.onnx",
       "model_data/trees_data.json"] ∧
    ((train_and_export_model g).files).all
      (fun f => decide (0 < f.content.length)) = true ∧
    (train_and_export_model g).importance_dict.map Prod.fst = featureNames ∧
    featureNames.length = 6 ∧
    (train_and_export_model g).trees_data =
      [⟨0, featureNames⟩, ⟨1, featureNames⟩, ⟨2, featureNames⟩,
       ⟨3, featureNames⟩, ⟨4, featureNames⟩] := by
  refine ⟨rfl, ?_, rfl, rfl, rfl⟩
  have hfiles : (train_and_export_model g).files =
      [⟨"model_data/feature_importance.json",
         jsonOfImportance ((train_and_export_model g).importance_dict)⟩,
       ⟨"onnx/random_forest_model.onnx",
         onnxSerialize ((train_and_export_model g).model)⟩,
       ⟨"model_data/trees_data.json",
         jsonOfTrees ((train_and_export_model g).trees_data)⟩] := rfl
  rw [hfiles]
  simp only [List.all_cons, List.all_nil, Bool.and_eq_true, decide_eq_true_eq,
    Bool.and_true]
  exact ⟨jsonOfImportance_length_pos _,
    onnxSerialize_length_pos _, jsonOfTrees_length_pos _⟩

set_option maxRecDepth 8000 in
/-- C6: the classifier of the run is fitted with the fixed hyperparameters
100 trees, maximum depth 10, minimum samples to split 5, and random seed 42;
the fitted ensemble indeed has 100 trees.  The hyperparameters are literal
constants of `train_and_export_model`, not inputs: the only parameter of the
run is the ambient generator state `g`, over which this holds universally. -/
theorem hyperparameters_fixed (g : RngState) :
    (train_and_export_model g).model.params =
      { n_estimators := 100, max_depth := 10, min_samples_split := 5,
        random_state := 42 } ∧
    (train_and_export_model g).model.estimators_.length = 100 :=
  ⟨rfl, rfl⟩

set_option maxRecDepth 8000 in
/-- Helper: the values of the importance dictionary of the run are exactly the
modelled normalized importances of the training rows. -/
theorem importance_dict_snd_eq (g : RngState) :
    ((train_and_export_model g).importance_dict).map Prod.snd =
      importancesOf (train_test_split (generate_synthetic_data g 2000).1.1
        (generate_synthetic_data g 2000).1.2 0.2 42).1 := rfl

/-- C7: the per-feature importance scores written to the importance JSON sum
to exactly one in the rational model, the normalization contract of the
ensemble library. -/
theorem importance_sums_to_one (g : RngState) :
    (((train_and_export_model g).importance_dict).map Prod.snd).sum = 1 := by
  rw [importance_dict_snd_eq]
  exact importancesOf_sum _

/-- Whether the module-level imports of the script succeed.  In Python the
lines importing numpy, pandas, sklearn and skl2onnx run when the module is
loaded, before the `__main__` block installs the try/except handler; a missing
dependency therefore raises at this phase. -/
inductive ImportPhase where
  | ok : ImportPhase
  | missingModule : String → ImportPhase
deriving DecidableEq, Repr

/-- Outcome of the `train_and_export_model()` call inside the try block: the
files it wrote before the point of failure, and either success or the raised
exception message.  Which exception, if any, a library raises at runtime is
outside the model, so the handler is verified for an arbitrary outcome. -/
structure PipelineBehavior where
  writes : List FileWrite
  result : Except String Unit

/-- The observable result of one script invocation: standard output (the lines
the script itself prints), the process exit status, and the files present when
the process ends. -/
structure ScriptResult where
  printed : List String
  exitCode : ℕ
  files : List FileWrite

/-- The two banner lines printed at the top of the `__main__` block. -/
def bannerLines : List String :=
  ["Focus Nudge - Random Forest Model Training",
   "=========================================="]

/-- The lines printed after a successful run. -/
def nextStepsLines : List String :=
  ["Next steps:",
   "1. Use the ONNX model with onnxruntime-web in your extension",
   "2. Update the JavaScript implementation with the extracted tree data",
   "3. For production, train on real user behavior data"]

/-- The static remediation hint printed by the except clause. -/
def installHintLines : List String :=
  ["To run this script, you need the following packages:",
   "pip install numpy pandas scikit-learn skl2onnx"]

/-- The `__main__` block of the script, including Python module semantics: the
module-level imports run first and a failure there aborts the process with a
traceback and exit status 1; only then does the banner print and the try block
run `train_and_export_model()`, whose exceptions the single except clause turns
into an `Error:` line plus the static install hint, leaving the exit status 0
and the already-written files in place. -/
def runScript (imp : ImportPhase) (body : PipelineBehavior) : ScriptResult :=
  match imp with
  | .missingModule m =>
      { printed := ["Traceback (most recent call last):",
                    "ModuleNotFoundError: No module named \x27" ++ m ++ "\x27"]
        exitCode := 1
        files := [] }
  | .ok =>
      match body.result with
      | .ok _ =>
          { printed := bannerLines ++ nextStepsLines
            exitCode := 0
            files := body.writes }
      | .error e =>
          { printed := bannerLines ++ ("Error: " ++ e) :: installHintLines
            exitCode := 0
            files := body.writes }

/-- The behavior C8 ascribes to every failing run with failure message `msg`:
the handler prints the message and the static install hint, the exit status
stays 0, and the files written before the failure survive. -/
def caughtByHandler (imp : ImportPhase) (body : PipelineBehavior)
    (msg : String) : Prop :=
  (runScript imp body).exitCode = 0 ∧
  ("Error: " ++ msg) ∈ (runScript imp body).printed ∧
  "pip install numpy pandas scikit-learn skl2onnx" ∈
    (runScript imp body).printed ∧
  (runScript imp body).files = body.writes

/-- Counterexample to C8 as stated: a missing-dependency failure (numpy absent)
is not caught by the top-level handler.  The process aborts during the
module-level imports with exit status 1 and without printing the install
hint, contradicting the claimed handler behavior at this concrete input. -/
theorem catch_all_counterexample :
    ¬ caughtByHandler (ImportPhase.missingModule "numpy") ⟨[], Except.ok ()⟩
      "No module named \x27numpy\x27" := by
  intro h
  have h0 : (1 : ℕ) = 0 := h.1
  omega

/-- C8 (amended): every failure raised inside `train_and_export_model` is
caught by the single top-level handler, which prints the exception message and
the static install hint without distinguishing error kinds, leaves the exit
status 0, and removes none of the already-written files; a missing dependency,
however, aborts at module load, before the handler exists, with exit status 1
and no hint. -/
theorem catch_all_handler (ws : List FileWrite) (e : String) :
    runScript ImportPhase.ok ⟨ws, Except.error e⟩ =
      { printed := bannerLines ++ ("Error: " ++ e) :: installHintLines,
        exitCode := 0, files := ws } ∧
    (runScript (ImportPhase.missingModule "numpy") ⟨ws, Except.ok ()⟩).exitCode
      = 1 :=
  ⟨rfl, rfl⟩
